import Mathlib

/-!
Verification of the GlobeTrek travel-planner repository.

The development shallowly embeds the pure logic of the repository:
the markdown-to-PDF element pipeline (`get_pdf_download_link` in
`globe.py` and `test.py`), the markdown image extractor
(`display_images_from_markdown` in `test.py`), the Amadeus
flight-search wrapper (`AmadeusFlightToolsSDK` in `main.py`), the
conversation-history dynamics of the Streamlit session, and the
prompt builder (`construct_query`).  External collaborators
(HTTP fetches, the Amadeus client, the SerpAPI search, the agent)
are modelled as explicit oracles passed in as function arguments.
-/

namespace GlobeTrek

/-! ### Character-list utilities

Python string primitives used by the sources (`str.split`,
`str.strip` emptiness tests, `str.replace`, prefix tests) modelled
on `List Char`. -/

/-- `leadsWith pat s` is true when `pat` is an initial segment of `s`
(Python `s.startswith(pat)`). -/
def leadsWith : List Char → List Char → Bool
  | [], _ => true
  | _ :: _, [] => false
  | p :: ps, c :: cs => p == c && leadsWith ps cs

/-- Python `text.split('\n')`: split at every newline, keeping empty
pieces, so the result always has one more piece than there are
newlines. -/
def splitLines : List Char → List (List Char)
  | [] => [[]]
  | c :: rest =>
    if c = '\n' then [] :: splitLines rest
    else
      match splitLines rest with
      | [] => [[c]]
      | l :: ls => (c :: l) :: ls

/-- A line for which Python `line.strip()` is falsy: all characters are
whitespace. -/
def isBlankLine (l : List Char) : Bool := l.all (fun c => c.isWhitespace)

/-- Fuelled worker for `removeAll`; the fuel is always instantiated
with the length of the subject string, which suffices because every
step consumes at least one character. -/
def removeFuel (pat : List Char) : Nat → List Char → List Char
  | _, [] => []
  | 0, s => s
  | fuel + 1, c :: rest =>
    if leadsWith pat (c :: rest) && pat.length != 0 then
      removeFuel pat fuel (List.drop (pat.length - 1) rest)
    else c :: removeFuel pat fuel rest

/-- Python `s.replace(pat, "")`: delete every non-overlapping
occurrence of `pat`, scanning left to right. -/
def removeAll (pat s : List Char) : List Char := removeFuel pat s.length s

/-! ### The image-reference scanner

`re.finditer(r'!\[(.*?)\]\((.*?)\)', text)` from
`display_images_from_markdown` (`test.py`), with Python `re`
backtracking semantics: at each candidate start the lazy groups take
the shortest completion, `.` never matches a newline, and scanning
resumes after the end of each match. -/

/-- Match the lazy group-2 part `(.*?)\)` of the image regex: the
shortest newline-free segment terminated by `')'`.  Returns the group
text and the remainder after the closing parenthesis. -/
def matchUrl : List Char → Option (List Char × List Char)
  | [] => none
  | c :: rest =>
    if c = ')' then some ([], rest)
    else if c = '\n' then none
    else (matchUrl rest).map (fun x => (c :: x.1, x.2))

/-- Match the lazy part `(.*?)\]\((.*?)\)` of the image regex starting
just after `![`.  The alt group takes the shortest completion for
which the rest of the pattern succeeds, backtracking past `](`
boundaries whose url part fails.  Returns (alt, url, remainder). -/
def matchAlt : List Char → Option (List Char × List Char × List Char)
  | [] => none
  | c :: rest =>
    if c = '\n' then none
    else if c = ']' then
      match rest with
      | '(' :: rest2 =>
        match matchUrl rest2 with
        | some (u, r) => some ([], u, r)
        | none => (matchAlt rest).map (fun x => (']' :: x.1, x.2.1, x.2.2))
      | _ => (matchAlt rest).map (fun x => (']' :: x.1, x.2.1, x.2.2))
    else (matchAlt rest).map (fun x => (c :: x.1, x.2.1, x.2.2))

/-- Fuelled worker for `findImageRefs`; the fuel is instantiated with
the length of the text, which suffices because every step strictly
shortens the text. -/
def scanFuel : Nat → List Char → List (List Char × List Char)
  | 0, _ => []
  | _, [] => []
  | fuel + 1, c :: rest =>
    if c = '!' then
      match rest with
      | '[' :: rest2 =>
        match matchAlt rest2 with
        | some (a, u, r) => (a, u) :: scanFuel fuel r
        | none => scanFuel fuel rest
      | _ => scanFuel fuel rest
    else scanFuel fuel rest

/-- All matches of `!\[(.*?)\]\((.*?)\)` in the text, in scan order,
as (alt, url) pairs. -/
def findImageRefs (cs : List Char) : List (List Char × List Char) :=
  scanFuel cs.length cs

/-- The full text of a match of the image regex (Python
`match.group(0)`): `![alt](url)` reassembled from its groups. -/
def refString (alt url : List Char) : List Char :=
  '!' :: '[' :: (alt ++ ']' :: '(' :: url ++ [')'])

/-! ### Rendered-document model

The reportlab element list built by `get_pdf_download_link`.  Each
constructor records the paragraph style used in the source; `spacer n`
stands for `Spacer(1, (n/100)*inch)`. -/

inductive Block where
  /-- `Paragraph(f"Travel Itinerary to {destination}", title_style)` -/
  | titlePara (text : String)
  /-- `Paragraph(f"Travel Dates: {travel_dates}", subheading_style)` -/
  | datesPara (text : String)
  /-- `h1` content, `Paragraph(element.text, heading_style)` -/
  | headingPara (text : String)
  /-- `h2` content, `Paragraph(element.text, section_style)` -/
  | sectionPara (text : String)
  /-- `h3` content, `Paragraph(element.text, day_style)` -/
  | dayPara (text : String)
  /-- `p` content or raw fallback line, `Paragraph(..., normal_style)` -/
  | normalPara (text : String)
  /-- `li` content, `Paragraph(f"• {element.text}", bullet_style)` -/
  | bulletPara (text : String)
  /-- an embedded fetched image (`test.py` only) -/
  | imageBlock (src : String)
  /-- the fixed footer paragraph -/
  | footerPara
  /-- `Spacer(1, (n/100)*inch)` -/
  | spacer (n : Nat)
deriving DecidableEq

/-- A node of the parsed HTML tree in document order, as
`BeautifulSoup.find_all` flattens it (a wrapper tag precedes its
children).  `hr` stands in for tags outside the recognized set. -/
inductive Node where
  | h1 (text : String)
  | h2 (text : String)
  | h3 (text : String)
  | p (text : String)
  | ul (text : String)
  | ol (text : String)
  | li (text : String)
  | img (src : String)
  | hr
deriving DecidableEq

/-- The tag name, as `element.name`. -/
def nodeName : Node → String
  | .h1 _ => "h1"
  | .h2 _ => "h2"
  | .h3 _ => "h3"
  | .p _ => "p"
  | .ul _ => "ul"
  | .ol _ => "ol"
  | .li _ => "li"
  | .img _ => "img"
  | .hr => "hr"

/-- `soup.find_all(names)`: the document-order nodes whose tag name is
in the requested list. -/
def findAll (names : List String) (nodes : List Node) : List Node :=
  nodes.filter (fun n => names.contains (nodeName n))

/-- The tag list requested by `globe.py`'s renderer. -/
def recognizedGlobe : List String := ["h1", "h2", "h3", "p", "ul", "li"]

/-- The tag list requested by `test.py`'s renderer (adds `img`). -/
def recognizedTest : List String := ["h1", "h2", "h3", "p", "ul", "li", "img"]

/-- The body of the `for element in soup.find_all(...)` loop of
`get_pdf_download_link` in `globe.py`: the elements appended for one
node. -/
def processTag : Node → List Block
  | .h1 t => [.headingPara t, .spacer 10]
  | .h2 t => [.sectionPara t, .spacer 10]
  | .h3 t => [.dayPara t]
  | .p t => [.normalPara t, .spacer 5]
  | .ul _ => []
  | .li t => [.bulletPara ("• " ++ t)]
  | _ => []

/-- The loop body of `test.py`'s renderer: identical to `globe.py`'s
except that an `img` node is fetched through the network oracle and
embedded when the fetch and decode succeed, and skipped otherwise. -/
def processTagImg (fetch : String → Bool) : Node → List Block
  | .img src => if fetch src then [.imageBlock src] else []
  | n => processTag n

/-- The four elements appended before markdown processing:
title paragraph, spacer, dates paragraph, spacer. -/
def headerElems (destination travel_dates : String) : List Block :=
  [.titlePara ("Travel Itinerary to " ++ destination), .spacer 20,
   .datesPara ("Travel Dates: " ++ travel_dates), .spacer 30]

/-- The elements contributed by walking the parsed tree (`globe.py`). -/
def bodyElems (nodes : List Node) : List Block :=
  (findAll recognizedGlobe nodes).flatMap processTag

/-- The elements contributed by walking the parsed tree (`test.py`). -/
def bodyElemsImg (fetch : String → Bool) (nodes : List Node) : List Block :=
  (findAll recognizedTest nodes).flatMap (processTagImg fetch)

/-- The raw-text fallback: one normal paragraph (and a small spacer)
per line of the input whose `strip()` is non-empty. -/
def rawLineElems (markdown_text : String) : List Block :=
  (splitLines markdown_text.toList).flatMap
    (fun l => if isBlankLine l then [] else [.normalPara (String.mk l), .spacer 5])

/-- The fixed footer: a half-inch spacer and the footer paragraph. -/
def footerElems : List Block := [.spacer 50, .footerPara]

/-- The element list from which `get_pdf_download_link` (`globe.py`,
lines 79-153) builds the PDF: header, then the walk of the parsed
tree, then — only when the list still holds at most the 4 header
elements — the raw-line fallback, then the footer.  The parsed tree is
passed in explicitly (the markdown-to-HTML conversion is a library
call). -/
def get_pdf_download_link (nodes : List Node)
    (markdown_text destination travel_dates : String) : List Block :=
  let els := headerElems destination travel_dates ++ bodyElems nodes
  let els := if els.length ≤ 4 then els ++ rawLineElems markdown_text else els
  els ++ footerElems

/-- The element list built by `test.py`'s `get_pdf_download_link`
(lines 138-250), with the image-fetch oracle `fetch`. -/
def get_pdf_download_link_img (fetch : String → Bool) (nodes : List Node)
    (markdown_text destination travel_dates : String) : List Block :=
  let els := headerElems destination travel_dates ++ bodyElemsImg fetch nodes
  let els := if els.length ≤ 4 then els ++ rawLineElems markdown_text else els
  els ++ footerElems

/-- Whether a rendered element is a spacer (layout glue, not a content
block). -/
def isSpacer : Block → Bool
  | .spacer _ => true
  | _ => false

/-- The content blocks produced by the markdown walk of `globe.py`'s
renderer, spacers filtered out. -/
def renderedBodyBlocks (nodes : List Node) : List Block :=
  (bodyElems nodes).filter (fun b => !isSpacer b)

/-- The number of body-paragraph (normal-style) blocks of an element
list. -/
def normalParaCount (bs : List Block) : Nat :=
  (bs.filter (fun b => match b with | .normalPara _ => true | _ => false)).length

/-- The number of input lines whose `strip()` is non-empty. -/
def nonEmptyLineCount (s : String) : Nat :=
  ((splitLines s.toList).filter (fun l => !isBlankLine l)).length

/-- Spec-side comparison definition, following the spec's words for
testable property 1: each recognized tag (`h1`, `h2`, `h3`, `p`, `li`)
yields exactly one block of the corresponding style, and the `ul`/`ol`
wrappers (and anything else) yield none. -/
def specBlockOf : Node → List Block
  | .h1 t => [.headingPara t]
  | .h2 t => [.sectionPara t]
  | .h3 t => [.dayPara t]
  | .p t => [.normalPara t]
  | .li t => [.bulletPara ("• " ++ t)]
  | _ => []

/-- Modelled from the spec: the third-party markdown-to-HTML
conversion (`markdown.markdown`) composed with BeautifulSoup's
document-order flattening, restricted to the ATX-heading /
bullet-list / paragraph fragment the claims exercise ("Parse markdown
to an HTML tree", spec §4.1).  A run of `- ` lines becomes a `ul`
wrapper followed by its `li` children; `# `, `## `, `### ` become
`h1`, `h2`, `h3`; any other non-blank line becomes a paragraph. -/
def mdLines : Bool → List (List Char) → List Node
  | _, [] => []
  | inList, l :: rest =>
    if isBlankLine l then mdLines false rest
    else if leadsWith "- ".toList l then
      (if inList then [Node.li (String.mk (l.drop 2))]
       else [Node.ul "", Node.li (String.mk (l.drop 2))]) ++ mdLines true rest
    else if leadsWith "### ".toList l then Node.h3 (String.mk (l.drop 4)) :: mdLines false rest
    else if leadsWith "## ".toList l then Node.h2 (String.mk (l.drop 3)) :: mdLines false rest
    else if leadsWith "# ".toList l then Node.h1 (String.mk (l.drop 2)) :: mdLines false rest
    else Node.p (String.mk l) :: mdLines false rest

/-- Parse a markdown string into the flattened document-order node
list (see `mdLines`). -/
def mdParse (s : String) : List Node := mdLines false (splitLines s.toList)

/-! ### Image extractor (`display_images_from_markdown`, `test.py` lines 83-134)

`st.image` is modelled as collecting the displayed (url, caption)
pairs; the SerpAPI collaborator is an oracle mapping a query to the
`images_results` list of the JSON response (`none` when the request
fails or the key is absent from the response). -/

/-- One entry of `images_results`; only the `original` field is read. -/
structure SearchItem where
  original : Option String
deriving DecidableEq

/-- The environment of the extractor: whether `SERPAPI_API_KEY` is
set, and the image-search collaborator. -/
structure ImgEnv where
  serpKey : Bool
  search : String → Option (List SearchItem)

/-- The observable outcome of one call to
`display_images_from_markdown`: the returned text, the images
displayed for markdown references (in display order), the images
displayed from the supplementary search, and the external search
queries issued. -/
structure ImgResult where
  text : String
  refImages : List (String × String)
  searchImages : List (String × String)
  searches : List String
deriving DecidableEq

/-- `caption=alt_text if alt_text else "Travel Image"`. -/
def captionOf (alt : String) : String := if alt = "" then "Travel Image" else alt

/-- `re.search(r'Plan a trip to (.*?) for', text)`: the middle group
of the leftmost match, where the lazy group takes the shortest
newline-free completion. -/
def matchMiddle (stop : List Char) : List Char → Option (List Char)
  | [] => if leadsWith stop [] then some [] else none
  | c :: rest =>
    if leadsWith stop (c :: rest) then some []
    else if c = '\n' then none
    else (matchMiddle stop rest).map (fun m => c :: m)

/-- Worker for `extractDest`: try each start position left to right. -/
def searchDest : List Char → Option (List Char)
  | [] => none
  | c :: rest =>
    if leadsWith "Plan a trip to ".toList (c :: rest) then
      match matchMiddle " for".toList (List.drop 14 rest) with
      | some mid => some mid
      | none => searchDest rest
    else searchDest rest

/-- The destination fallback of `display_images_from_markdown`:
extract the destination from the text when none was passed. -/
def extractDest (t : String) : Option String := (searchDest t.toList).map String.mk

/-- Python truthiness of the resolved destination. -/
def destTruthy : Option String → Bool
  | none => false
  | some d => d != ""

/-- The resolved destination as a string (only read when truthy). -/
def destVal : Option String → String
  | none => ""
  | some d => d

/-- The images displayed from `results['images_results'][:3]`:
`enumerate` the first three entries, skip entries whose `original`
url is missing or falsy, caption `f"{destination} attraction {i+1}"`. -/
def searchImagesOf (dest : String) (items : List SearchItem) : List (String × String) :=
  (items.take 3).enum.filterMap fun p =>
    match p.2.original with
    | some u => if u = "" then none else some (u, dest ++ " attraction " ++ toString (p.1 + 1))
    | none => none

/-- The per-match loop of `display_images_from_markdown`: for each
match (in scan order) display the image, then strip every occurrence
of the matched text from the running text.  Returns the final text
and the displayed (url, caption) pairs. -/
def dimLoop : List (List Char × List Char) → List Char → List Char × List (String × String)
  | [], text => (text, [])
  | (alt, url) :: ms, text =>
    let text2 := removeAll (refString alt url) text
    let r := dimLoop ms text2
    (r.1, (String.mk url, captionOf (String.mk alt)) :: r.2)

/-- `display_images_from_markdown(markdown_text, destination)`:
resolve the destination (extracting it from the text when absent),
run the supplementary search when the scan found no reference, the
destination is truthy and the SerpAPI key is set, then display each
scanned reference and strip it from the returned text. -/
def display_images_from_markdown (env : ImgEnv) (markdown_text : String)
    (destination : Option String) : ImgResult :=
  let dest : Option String :=
    match destination with
    | some d => if d = "" then extractDest markdown_text else some d
    | none => extractDest markdown_text
  let ms := findImageRefs markdown_text.toList
  let sPart : List String × List (String × String) :=
    if ms.isEmpty && destTruthy dest && env.serpKey then
      let q := destVal dest ++ " travel attractions"
      match env.search q with
      | some items => ([q], searchImagesOf (destVal dest) items)
      | none => ([q], [])
    else ([], [])
  let r := dimLoop ms markdown_text.toList
  { text := String.mk r.1, refImages := r.2, searchImages := sPart.2, searches := sPart.1 }

/-! ### Amadeus flight tools (`AmadeusFlightToolsSDK`, `main.py` lines 17-83) -/

/-- The outcome of one call through the Amadeus client: response
data, an `amadeus.ResponseError` (caught by the wrapper), or any
other exception (which the wrapper does not catch). -/
inductive ApiOutcome where
  | ok (data : String)
  | responseError (msg : String)
  | otherException (msg : String)
deriving DecidableEq

/-- The request each wrapper method sends, mirroring the call sites:
`reference_data.locations.get(keyword, subType=AIRPORT)`,
`shopping.flight_offers_search.get(...)` with or without
`returnDate`, and `reference_data.locations.by_id.get(locationId)`. -/
inductive AmadeusRequest where
  | locations (keyword : String)
  | flightOffers (origin destination departureDate : String)
      (returnDate : Option String) (adults : Nat)
  | locationById (locationId : String)
deriving DecidableEq

/-- What a wrapper method hands back in a `return`: response data or
an error dictionary. -/
inductive FlightReturn where
  | data (d : String)
  | errorObj (msg : String)
deriving DecidableEq

/-- A wrapper call either returns a value or lets an uncaught
exception escape to the caller. -/
inductive FlightResult where
  | returns (r : FlightReturn)
  | raises (msg : String)
deriving DecidableEq

/-- Python truthiness of an optional credential string. -/
def credTruthy : Option String → Bool
  | none => false
  | some s => s != ""

/-- The state `__init__` leaves behind: the client when construction
succeeded, and `self.error_message`. -/
structure AmadeusState where
  clientUp : Bool
  error_message : Option String
deriving DecidableEq

/-- `AmadeusFlightToolsSDK.__init__`: with falsy credentials no client
is built and the fixed message is recorded; otherwise `Client(...)` is
attempted, a `ValueError` producing the initialization message. -/
def amadeusInit (client_id client_secret : Option String)
    (clientCtor : Except String Unit) : AmadeusState :=
  if !(credTruthy client_id) || !(credTruthy client_secret) then
    { clientUp := false, error_message := some "Amadeus client credentials are missing" }
  else
    match clientCtor with
    | .ok _ => { clientUp := true, error_message := none }
    | .error e =>
      { clientUp := false, error_message := some ("Error initializing Amadeus client: " ++ e) }

/-- Shared method shape: return the error payload when there is no
client, otherwise run the request, catching only `ResponseError`. -/
def amadeusCall (st : AmadeusState) (exec : AmadeusRequest → ApiOutcome)
    (req : AmadeusRequest) : FlightResult :=
  if !st.clientUp then
    .returns (.errorObj (destVal st.error_message))
  else
    match exec req with
    | .ok d => .returns (.data d)
    | .responseError e => .returns (.errorObj e)
    | .otherException e => .raises e

/-- `search_airports(keyword)`. -/
def search_airports (st : AmadeusState) (exec : AmadeusRequest → ApiOutcome)
    (keyword : String) : FlightResult :=
  amadeusCall st exec (.locations keyword)

/-- The flight-offers request `search_flights` builds: `returnDate` is
included exactly when the argument is truthy. -/
def flightRequest (origin destination departure_date : String)
    (return_date : Option String) (adults : Nat) : AmadeusRequest :=
  if credTruthy return_date then
    .flightOffers origin destination departure_date return_date adults
  else
    .flightOffers origin destination departure_date none adults

/-- `search_flights(origin, destination, departure_date, return_date, adults)`. -/
def search_flights (st : AmadeusState) (exec : AmadeusRequest → ApiOutcome)
    (origin destination departure_date : String) (return_date : Option String)
    (adults : Nat) : FlightResult :=
  amadeusCall st exec (flightRequest origin destination departure_date return_date adults)

/-- `get_airport_info(airport_code)`. -/
def get_airport_info (st : AmadeusState) (exec : AmadeusRequest → ApiOutcome)
    (airport_code : String) : FlightResult :=
  amadeusCall st exec (.locationById airport_code)

/-! ### Conversation-history dynamics (`main.py` lines 410-459) -/

/-- The role tag of a history entry. -/
inductive Role where
  | user
  | assistant
deriving DecidableEq

/-- One entry of `st.session_state.messages`. -/
structure Turn where
  role : Role
  content : String
deriving DecidableEq

/-- The outcome of `globe_hopper_agent.run(user_prompt)`: a response
or an exception. -/
inductive AgentOutcome where
  | ok (content : String)
  | exc (msg : String)
deriving DecidableEq

/-- One press of the generate-plan button (`main.py` lines 410-421):
when the basic validation passes, the user turn is appended, and the
assistant turn is appended only when the agent call returns. -/
def generatePlanStep (msgs : List Turn) (destination : String) (datesOk : Bool)
    (prompt : String) (agent : AgentOutcome) : List Turn :=
  if destination != "" && datesOk then
    let m1 := msgs ++ [{ role := .user, content := prompt }]
    match agent with
    | .ok c => m1 ++ [{ role := .assistant, content := c }]
    | .exc _ => m1
  else msgs

/-- The histories reachable from the initial empty session by
generate-plan presses. -/
inductive ReachableHistory : List Turn → Prop where
  | init : ReachableHistory []
  | plan (msgs : List Turn) (destination : String) (datesOk : Bool)
      (prompt : String) (agent : AgentOutcome) :
      ReachableHistory msgs →
      ReachableHistory (generatePlanStep msgs destination datesOk prompt agent)

/-- A history is built from (user, assistant) pairs only. -/
def pairedHistory : List Turn → Bool
  | [] => true
  | { role := .user, content := _ } :: { role := .assistant, content := _ } :: rest =>
    pairedHistory rest
  | _ => false

/-- Worker for `userThenOptReply`: the flag records whether the
previous entry was a user turn, so an assistant turn is accepted only
directly after a user turn. -/
def uoaFrom : Bool → List Turn → Bool
  | _, [] => true
  | _, { role := .user, content := _ } :: rest => uoaFrom true rest
  | b, { role := .assistant, content := _ } :: rest => b && uoaFrom false rest

/-- A history is a sequence of user turns, each followed by at most
one assistant turn. -/
def userThenOptReply (msgs : List Turn) : Bool := uoaFrom false msgs

/-- The display loop (`main.py` lines 435-441): step through the
history two entries at a time; a pair is rendered only when both the
question and the answer exist. -/
def displayedPairs : List Turn → List (String × String)
  | x :: y :: rest => (x.content, y.content) :: displayedPairs rest
  | _ => []

/-! ### Prompt builder (`construct_query`) -/

/-- The budget label translation of `globe.py` (`budget_map`). -/
def budget_map : List (String × String) :=
  [("Budget - Up to ₹50,000", "under ₹50,000"),
   ("Mid-range - ₹50,000 to ₹1,50,000", "₹50,000-1,50,000"),
   ("Luxury - Above ₹1,50,000", "over ₹1,50,000")]

/-- `construct_query` (`globe.py` lines 353-377).  The two date
pickers are modelled by their already-formatted `strftime` strings. -/
def construct_query (destination origin_city start_s end_s : String)
    (travelers : Nat) (budget_option : String) (interests : List String)
    (accommodation additional_notes : String) : String :=
  if destination = "" then ""
  else
    let travel_dates := start_s ++ " to " ++ end_s
    let budget_str := ((budget_map.lookup budget_option).getD "flexible")
    let query := "Plan a trip to " ++ destination ++ " for " ++ toString travelers ++ " travelers"
    let query := if origin_city ≠ "" then query ++ " departing from " ++ origin_city else query
    let query := query ++ " from " ++ travel_dates ++ " with a " ++ budget_str ++ " budget in INR"
    let query := if interests ≠ [] then
        query ++ ". We're interested in: " ++ String.intercalate ", " interests
      else query
    let query := if accommodation ≠ "Any" then
        query ++ ". We prefer staying in " ++ accommodation
      else query
    let query := if additional_notes ≠ "" then
        query ++ ". Additional notes: " ++ additional_notes
      else query
    query ++ ". Please include flight options, accommodations, daily activities, and all costs in INR. Use Exa to search for flight information, prices, and schedules."

/-- `construct_query` (`main.py` lines 374-408): same shape with the
departure airport code instead of the city and without the trailing
Exa sentence. -/
def construct_query_main (destination origin_airport start_s end_s : String)
    (travelers : Nat) (budget_option : String) (interests : List String)
    (accommodation additional_notes : String) : String :=
  if destination = "" then ""
  else
    let travel_dates := start_s ++ " to " ++ end_s
    let budget_str := ((budget_map.lookup budget_option).getD "flexible")
    let query := "Plan a trip to " ++ destination ++ " for " ++ toString travelers ++ " travelers"
    let query := if origin_airport ≠ "" then query ++ " departing from " ++ origin_airport else query
    let query := query ++ " from " ++ travel_dates ++ " with a " ++ budget_str ++ " budget in INR"
    let query := if interests ≠ [] then
        query ++ ". We're interested in: " ++ String.intercalate ", " interests
      else query
    let query := if accommodation ≠ "Any" then
        query ++ ". We prefer staying in " ++ accommodation
      else query
    let query := if additional_notes ≠ "" then
        query ++ ". Additional notes: " ++ additional_notes
      else query
    query ++ ". Please include flight options, accommodations, daily activities, and all costs in INR."

/-! ### Helper lemmas -/

/-- Appending a non-empty string on the right keeps a string
non-empty. -/
theorem append_right_ne_empty (s t : String) (ht : t ≠ "") : s ++ t ≠ "" := by
  cases s with
  | mk ls =>
    cases t with
    | mk lt =>
      intro he
      apply ht
      have h2 : ls ++ lt = [] := congrArg String.data he
      have h3 : lt = [] := (List.append_eq_nil.mp h2).2
      rw [h3]

/-- With a non-empty destination, `construct_query` yields a
non-empty prompt (it ends in a fixed non-empty sentence). -/
theorem construct_query_ne (destination origin start_s end_s : String)
    (travelers : Nat) (budget_option : String) (interests : List String)
    (accommodation additional_notes : String) (hd : destination ≠ "") :
    construct_query destination origin start_s end_s travelers budget_option
      interests accommodation additional_notes ≠ "" := by
  unfold construct_query
  rw [if_neg hd]
  exact append_right_ne_empty _ _ (by decide)

/-- With a non-empty destination, `construct_query` of `main.py`
yields a non-empty prompt. -/
theorem construct_query_main_ne (destination origin start_s end_s : String)
    (travelers : Nat) (budget_option : String) (interests : List String)
    (accommodation additional_notes : String) (hd : destination ≠ "") :
    construct_query_main destination origin start_s end_s travelers budget_option
      interests accommodation additional_notes ≠ "" := by
  unfold construct_query_main
  rw [if_neg hd]
  exact append_right_ne_empty _ _ (by decide)

/-! ### Claim C9 -/

/-- Claim C9: for every combination of the other form inputs, the
prompt builder `construct_query` (both the `globe.py` and the
`main.py` version) returns the empty string exactly when the
destination field is empty, so a non-empty prompt is produced only
for a non-empty destination. -/
theorem construct_query_empty_iff_no_destination
    (destination origin start_s end_s : String) (travelers : Nat)
    (budget_option : String) (interests : List String)
    (accommodation additional_notes : String) :
    (construct_query destination origin start_s end_s travelers budget_option
        interests accommodation additional_notes = "" ↔ destination = "")
    ∧ (construct_query_main destination origin start_s end_s travelers budget_option
        interests accommodation additional_notes = "" ↔ destination = "") := by
  constructor
  · constructor
    · intro h
      by_contra hd
      exact construct_query_ne destination origin start_s end_s travelers
        budget_option interests accommodation additional_notes hd h
    · intro hd
      subst hd
      simp [construct_query]
  · constructor
    · intro h
      by_contra hd
      exact construct_query_main_ne destination origin start_s end_s travelers
        budget_option interests accommodation additional_notes hd h
    · intro hd
      subst hd
      simp [construct_query_main]

/-! ### Claim C7 -/

/-- A flight-tools call that came back to the caller as a `return`
rather than an exception. -/
def isReturn : FlightResult → Bool
  | .returns _ => true
  | .raises _ => false

/-- A client outcome the wrapper handles: response data or an
`amadeus.ResponseError`. -/
def benign : ApiOutcome → Bool
  | .otherException _ => false
  | _ => true

/-- Claim C7: whenever the Amadeus client yields data or a
`ResponseError`, each of `search_airports`, `search_flights` and
`get_airport_info` returns a value (data or an error object) instead
of raising; and with absent (falsy) credentials every operation
returns the fixed payload with message
"Amadeus client credentials are missing". -/
theorem amadeus_ops_return_or_degrade
    (client_id client_secret : Option String) (ctor : Except String Unit)
    (exec : AmadeusRequest → ApiOutcome) (keyword origin dst dep : String)
    (rd : Option String) (ad : Nat) (code : String) :
    (benign (exec (.locations keyword)) = true →
      isReturn (search_airports (amadeusInit client_id client_secret ctor) exec keyword) = true)
    ∧ (benign (exec (flightRequest origin dst dep rd ad)) = true →
      isReturn (search_flights (amadeusInit client_id client_secret ctor) exec origin dst dep rd ad) = true)
    ∧ (benign (exec (.locationById code)) = true →
      isReturn (get_airport_info (amadeusInit client_id client_secret ctor) exec code) = true)
    ∧ ((credTruthy client_id = false ∨ credTruthy client_secret = false) →
      search_airports (amadeusInit client_id client_secret ctor) exec keyword
          = .returns (.errorObj "Amadeus client credentials are missing")
        ∧ search_flights (amadeusInit client_id client_secret ctor) exec origin dst dep rd ad
          = .returns (.errorObj "Amadeus client credentials are missing")
        ∧ get_airport_info (amadeusInit client_id client_secret ctor) exec code
          = .returns (.errorObj "Amadeus client credentials are missing")) := by
  have hcall : ∀ (st : AmadeusState) (req : AmadeusRequest),
      benign (exec req) = true → isReturn (amadeusCall st exec req) = true := by
    intro st req hb
    unfold amadeusCall
    cases hst : st.clientUp <;> cases hex : exec req <;> simp_all [benign, isReturn]
  refine ⟨hcall _ _, hcall _ _, hcall _ _, ?_⟩
  intro hmiss
  have hst : amadeusInit client_id client_secret ctor
      = { clientUp := false, error_message := some "Amadeus client credentials are missing" } := by
    unfold amadeusInit
    rcases hmiss with h | h <;> simp [h]
  refine ⟨?_, ?_, ?_⟩ <;>
    simp [search_airports, search_flights, get_airport_info, amadeusCall, hst, destVal]

/-- Concrete instantiation of the flight-tools theorem: missing
client id, an exec oracle that reports a `ResponseError`. -/
def execRespErr : AmadeusRequest → ApiOutcome := fun _ => .responseError "quota exceeded"

/-- Witness for claim C7's theorem at concrete inputs. -/
theorem amadeus_ops_return_or_degrade_witness :
    isReturn (search_airports (amadeusInit none (some "sec") (.ok ())) execRespErr "DEL") = true
    ∧ search_airports (amadeusInit none (some "sec") (.ok ())) execRespErr "DEL"
        = .returns (.errorObj "Amadeus client credentials are missing") := by
  have h := amadeus_ops_return_or_degrade none (some "sec") (.ok ()) execRespErr
    "DEL" "DEL" "CDG" "2025-01-01" none 1 "BOM"
  exact ⟨h.1 rfl, (h.2.2.2 (Or.inl rfl)).1⟩

/-! ### Claim C8 -/

/-- Appending a lone user turn preserves the user-then-optional-reply
shape. -/
theorem uoaFrom_append_user (p : String) :
    ∀ (msgs : List Turn) (b : Bool), uoaFrom b msgs = true →
      uoaFrom b (msgs ++ [{ role := .user, content := p }]) = true := by
  intro msgs
  induction msgs with
  | nil => intro b _; rfl
  | cons t rest ih =>
    intro b hb
    cases t with
    | mk r c =>
      cases r with
      | user =>
        simpa [uoaFrom] using ih true (by simpa [uoaFrom] using hb)
      | assistant =>
        have hb2 := (Bool.and_eq_true _ _).mp (by simpa [uoaFrom] using hb)
        simp only [List.cons_append, uoaFrom, hb2.1, Bool.true_and]
        exact ih false hb2.2

/-- Appending a user turn followed by an assistant turn preserves the
user-then-optional-reply shape. -/
theorem uoaFrom_append_pair (p c : String) :
    ∀ (msgs : List Turn) (b : Bool), uoaFrom b msgs = true →
      uoaFrom b (msgs ++ [{ role := .user, content := p },
        { role := .assistant, content := c }]) = true := by
  intro msgs
  induction msgs with
  | nil => intro b _; rfl
  | cons t rest ih =>
    intro b hb
    cases t with
    | mk r cc =>
      cases r with
      | user =>
        simpa [uoaFrom] using ih true (by simpa [uoaFrom] using hb)
      | assistant =>
        have hb2 := (Bool.and_eq_true _ _).mp (by simpa [uoaFrom] using hb)
        simp only [List.cons_append, uoaFrom, hb2.1, Bool.true_and]
        exact ih false hb2.2

/-- The display loop only reads the even-length front of the history:
a trailing unpaired entry is never rendered. -/
theorem displayedPairs_take (l : List Turn) :
    displayedPairs l = displayedPairs (l.take (2 * (l.length / 2))) := by
  match l with
  | [] => rfl
  | [x] => simp [displayedPairs]
  | x :: y :: rest =>
    have ih := displayedPairs_take rest
    have hlen : 2 * ((x :: y :: rest).length / 2) = (2 * (rest.length / 2) + 1) + 1 := by
      simp only [List.length_cons]
      omega
    rw [hlen]
    simp only [List.take_succ_cons, displayedPairs]
    rw [← ih]

/-- Counterexample to claim C8: when the agent call raises, the
generate-plan handler has already appended the user turn and appends
no assistant turn, so a reachable history holds an unpaired user
entry. -/
theorem unpaired_history_reachable :
    ReachableHistory [{ role := .user, content := "q" }]
    ∧ pairedHistory [{ role := .user, content := "q" }] = false := by
  constructor
  · exact ReachableHistory.plan [] "Paris" true "q" (.exc "boom") ReachableHistory.init
  · rfl

/-- Claim C8, amended: every reachable history is a sequence of user
turns each followed by at most one assistant turn (a failed agent
call leaves the user turn unpaired), and the display loop walks the
history two entries at a time, silently dropping an unpaired trailing
entry rather than rendering it. -/
theorem reachable_history_shape (msgs : List Turn) (h : ReachableHistory msgs) :
    userThenOptReply msgs = true
    ∧ displayedPairs msgs = displayedPairs (msgs.take (2 * (msgs.length / 2))) := by
  refine ⟨?_, displayedPairs_take msgs⟩
  induction h with
  | init => rfl
  | plan msgs0 destination datesOk prompt agent _ ih =>
    unfold generatePlanStep
    by_cases hc : (destination != "" && datesOk) = true
    · rw [if_pos hc]
      cases agent with
      | ok c =>
        show uoaFrom false ((msgs0 ++ [{ role := .user, content := prompt }])
          ++ [{ role := .assistant, content := c }]) = true
        rw [List.append_assoc]
        exact uoaFrom_append_pair prompt c msgs0 false ih
      | exc m => exact uoaFrom_append_user prompt msgs0 false ih
    · rw [if_neg hc]
      exact ih

/-- A concrete reachable paired history: one successful generate-plan
press. -/
def historyW : List Turn :=
  [{ role := .user, content := "q" }, { role := .assistant, content := "r" }]

/-- Witness for claim C8's amended theorem at a concrete reachable
history. -/
theorem reachable_history_shape_witness :
    ReachableHistory historyW
    ∧ (userThenOptReply historyW = true
      ∧ displayedPairs historyW = displayedPairs (historyW.take (2 * (historyW.length / 2)))) := by
  have hr : ReachableHistory historyW :=
    ReachableHistory.plan [] "Paris" true "q" (.ok "r") ReachableHistory.init
  exact ⟨hr, reachable_history_shape historyW hr⟩

/-! ### Claims C1, C3, C4, C5: the document renderer -/

/-- Counting the normal paragraphs of the raw-line fallback gives the
number of non-blank lines. -/
theorem rawCount (ls : List (List Char)) :
    normalParaCount (ls.flatMap
      (fun l => if isBlankLine l then [] else [Block.normalPara (String.mk l), Block.spacer 5]))
    = (ls.filter (fun l => !isBlankLine l)).length := by
  induction ls with
  | nil => rfl
  | cons l rest ih =>
    by_cases hbl : isBlankLine l = true
    · simpa [normalParaCount, List.flatMap_cons, List.filter_cons, hbl] using ih
    · simp only [List.flatMap_cons, List.filter_cons, hbl, normalParaCount,
        List.filter_append, List.length_append] at ih ⊢
      simp [ih]
      omega

/-- The fallback emits exactly one body paragraph per non-empty input
line. -/
theorem rawLineElems_count (s : String) :
    normalParaCount (rawLineElems s) = nonEmptyLineCount s := by
  unfold rawLineElems nonEmptyLineCount
  exact rawCount _

/-- Counterexample to claim C1: the markdown `"# Hi"` parses to a
tree yielding a single block — at most 4 — yet the renderer keeps the
heading block and emits zero body paragraphs instead of one paragraph
per non-empty line (there is 1 non-empty line). -/
theorem fallback_threshold_counterexample :
    (renderedBodyBlocks (mdParse "# Hi")).length ≤ 4
    ∧ normalParaCount (get_pdf_download_link (mdParse "# Hi") "# Hi" "Delhi" "dates") = 0
    ∧ nonEmptyLineCount "# Hi" = 1 := by
  decide

/-- Claim C1, amended: the renderer falls back to unstructured mode
exactly when the walk of the parsed tree contributed no element at
all (no recognized-tag content), not when it yields at most 4 blocks;
in the fallback the raw lines are appended after the header, and the
fallback emits one body-paragraph block per non-empty input line. -/
theorem render_fallback_iff_no_recognized_content (nodes : List Node) (s d td : String) :
    get_pdf_download_link nodes s d td =
      (if bodyElems nodes = [] then (headerElems d td ++ rawLineElems s) ++ footerElems
       else (headerElems d td ++ bodyElems nodes) ++ footerElems)
    ∧ normalParaCount (rawLineElems s) = nonEmptyLineCount s := by
  refine ⟨?_, rawLineElems_count s⟩
  cases hb : bodyElems nodes with
  | nil =>
    simp [get_pdf_download_link, hb, headerElems]
  | cons b rest =>
    have hlen : ¬ ((headerElems d td).length + (rest.length + 1) ≤ 4) := by
      simp only [headerElems, List.length_cons, List.length_nil]
      omega
    simp [get_pdf_download_link, hb, hlen]

/-- The last element of a list ending in two given elements. -/
theorem getLast?_append_two (l : List Block) (a b : Block) :
    (l ++ [a, b]).getLast? = some b := by
  rw [show l ++ [a, b] = (l ++ [a]) ++ [b] by simp]
  exact List.getLast?_concat _

/-- The worked example input of the spec. -/
def parisInput : String := "# Paris Trip\n## Day 1\n- Visit the Louvre\n- Eat croissants"

/-- Claim C3: on the spec's worked example the walk of the parsed
tree yields exactly the title/section/bullet/bullet blocks, and the
renderer appends the fixed footer block last. -/
theorem paris_example_blocks (d td : String) :
    renderedBodyBlocks (mdParse parisInput)
      = [Block.headingPara "Paris Trip", Block.sectionPara "Day 1",
         Block.bulletPara "• Visit the Louvre", Block.bulletPara "• Eat croissants"]
    ∧ (get_pdf_download_link (mdParse parisInput) parisInput d td).getLast?
      = some Block.footerPara := by
  constructor
  · decide
  · have hlen : ¬ ((headerElems d td ++ bodyElems (mdParse parisInput)).length ≤ 4) := by
      simp [headerElems, List.length_append,
        show (bodyElems (mdParse parisInput)).length = 6 from rfl]
    simp only [get_pdf_download_link, hlen, if_false, if_neg hlen]
    exact getLast?_append_two _ _ _

/-- Walking one more node prepends just that node's content blocks. -/
theorem renderedBodyBlocks_cons (n : Node) (rest : List Node) :
    renderedBodyBlocks (n :: rest) = renderedBodyBlocks [n] ++ renderedBodyBlocks rest := by
  cases n <;> rfl

/-- Claim C4: on a tree containing only heading, paragraph and list
tags, the walk yields exactly one block per recognized `h1`, `h2`,
`h3`, `p`, `li` tag, in document order, and the `ul`/`ol` wrappers
yield none. -/
theorem render_one_block_per_tag (nodes : List Node)
    (h : ∀ n ∈ nodes, nodeName n ∈ (["h1", "h2", "h3", "p", "ul", "ol", "li"] : List String)) :
    renderedBodyBlocks nodes = nodes.flatMap specBlockOf := by
  induction nodes with
  | nil => rfl
  | cons n rest ih =>
    have hrest := fun m hm => h m (List.mem_cons_of_mem _ hm)
    have hn := h n (List.mem_cons_self _ _)
    have hsingle : renderedBodyBlocks [n] = specBlockOf n := by
      cases n with
      | h1 t => rfl
      | h2 t => rfl
      | h3 t => rfl
      | p t => rfl
      | ul t => rfl
      | ol t => rfl
      | li t => rfl
      | img src =>
        have hn2 : ("img" : String) ∈ (["h1", "h2", "h3", "p", "ul", "ol", "li"] : List String) := hn
        exact absurd hn2 (by decide)
      | hr =>
        have hn2 : ("hr" : String) ∈ (["h1", "h2", "h3", "p", "ul", "ol", "li"] : List String) := hn
        exact absurd hn2 (by decide)
    rw [renderedBodyBlocks_cons, hsingle, ih hrest, List.flatMap_cons]

/-- Witness for claim C4's theorem on a concrete mixed tree. -/
theorem render_one_block_per_tag_witness :
    (∀ n ∈ ([Node.h1 "A", Node.ul "", Node.li "x", Node.ol "", Node.li "y", Node.p "t"] : List Node),
      nodeName n ∈ (["h1", "h2", "h3", "p", "ul", "ol", "li"] : List String))
    ∧ renderedBodyBlocks [Node.h1 "A", Node.ul "", Node.li "x", Node.ol "", Node.li "y", Node.p "t"]
      = [Node.h1 "A", Node.ul "", Node.li "x", Node.ol "", Node.li "y", Node.p "t"].flatMap specBlockOf := by
  exact ⟨by decide, render_one_block_per_tag _ (by decide)⟩

/-- Claim C5: an image whose fetch or decode fails contributes
nothing, so the rendered document is identical — same non-image
blocks in the same order and count, same remaining images — to the
render of the same tree with that `img` node removed; nothing is
aborted. -/
theorem img_failure_isolated (fetch : String → Bool) (ns1 ns2 : List Node)
    (url s d td : String) (h : fetch url = false) :
    get_pdf_download_link_img fetch (ns1 ++ Node.img url :: ns2) s d td
      = get_pdf_download_link_img fetch (ns1 ++ ns2) s d td := by
  have hbody : bodyElemsImg fetch (ns1 ++ Node.img url :: ns2)
      = bodyElemsImg fetch (ns1 ++ ns2) := by
    simp [bodyElemsImg, findAll, List.filter_append, List.filter_cons, nodeName,
      recognizedTest, List.flatMap_append, List.flatMap_cons, processTagImg, h]
  unfold get_pdf_download_link_img
  rw [hbody]

/-- The always-failing fetch oracle. -/
def fetchNone : String → Bool := fun _ => false

/-- Witness for claim C5's theorem on a concrete tree with a failing
image between a heading and a paragraph. -/
theorem img_failure_isolated_witness :
    fetchNone "http://img" = false
    ∧ get_pdf_download_link_img fetchNone [Node.h1 "A", Node.img "http://img", Node.p "B"] "x" "D" "T"
      = get_pdf_download_link_img fetchNone [Node.h1 "A", Node.p "B"] "x" "D" "T" := by
  exact ⟨rfl,
    img_failure_isolated fetchNone [Node.h1 "A"] [Node.p "B"] "http://img" "x" "D" "T" rfl⟩

/-! ### Claims C2 and C6: the image extractor -/

/-- The display-and-strip loop decomposes: it displays one image per
match in order, and folds the removal of each matched text over the
running text. -/
theorem dimLoop_spec (ms : List (List Char × List Char)) (text : List Char) :
    (dimLoop ms text).2 = ms.map (fun m => (String.mk m.2, captionOf (String.mk m.1)))
    ∧ (dimLoop ms text).1
      = ms.foldl (fun s m => removeAll (refString m.1 m.2) s) text := by
  induction ms generalizing text with
  | nil => exact ⟨rfl, rfl⟩
  | cons m rest ih =>
    cases m with
    | mk alt url =>
      have ih2 := ih (removeAll (refString alt url) text)
      exact ⟨by simp [dimLoop, ih2.1], by simp [dimLoop, List.foldl_cons, ih2.2]⟩

/-- An extractor environment with no SerpAPI key and no search
results. -/
def envPlain : ImgEnv := { serpKey := false, search := fun _ => none }

/-- Counterexample to claim C2: on the input `"!![b](c)[a](u)"` the
only reference the scan finds is `![b](c)`; stripping it splices the
leading `!` onto `[a](u)`, so the returned text `![a](u)` is itself a
syntactically valid image reference — the output text is not free of
image references. -/
theorem image_strip_splices_new_reference :
    (display_images_from_markdown envPlain "!![b](c)[a](u)" none).text = "![a](u)"
    ∧ (display_images_from_markdown envPlain "!![b](c)[a](u)" none).refImages = [("c", "b")]
    ∧ findImageRefs ("![a](u)".toList) ≠ [] := by
  refine ⟨by decide, by decide, by decide⟩

/-- Claim C2, amended: the extractor displays one image per reference
found by a single left-to-right scan of the input (url, with the alt
text — or "Travel Image" when the alt is empty — as caption), in scan
order, and returns the input text with all occurrences of each
scanned reference's matched text removed in sequence; such a removal
can splice the surrounding text into a new image reference that
remains in the returned text. -/
theorem extractor_displays_and_strips (env : ImgEnv) (t : String) (dOpt : Option String) :
    (display_images_from_markdown env t dOpt).refImages
      = (findImageRefs t.toList).map (fun m => (String.mk m.2, captionOf (String.mk m.1)))
    ∧ (display_images_from_markdown env t dOpt).text
      = String.mk ((findImageRefs t.toList).foldl
          (fun s m => removeAll (refString m.1 m.2) s) t.toList) := by
  have h := dimLoop_spec (findImageRefs t.toList) t.toList
  exact ⟨h.1, congrArg String.mk h.2⟩

/-- Claim C6: with no image reference in the text, a non-empty
destination and the SerpAPI key configured, the extractor issues
exactly one search with query `destination ++ " travel attractions"`,
displays at most 3 search results and no reference images, and
returns the input text unmodified. -/
theorem no_refs_triggers_one_search (env : ImgEnv) (t d : String)
    (hrefs : findImageRefs t.toList = []) (hd : d ≠ "") (hkey : env.serpKey = true) :
    (display_images_from_markdown env t (some d)).searches = [d ++ " travel attractions"]
    ∧ (display_images_from_markdown env t (some d)).searchImages.length ≤ 3
    ∧ (display_images_from_markdown env t (some d)).refImages = []
    ∧ (display_images_from_markdown env t (some d)).text = t := by
  have hd2 : (d != "") = true := by simpa using hd
  have hlen : ∀ items : List SearchItem, (searchImagesOf d items).length ≤ 3 := by
    intro items
    calc (searchImagesOf d items).length
        ≤ (items.take 3).enum.length := List.length_filterMap_le _ _
      _ = (items.take 3).length := List.enum_length
      _ ≤ 3 := by rw [List.length_take]; omega
  dsimp only [display_images_from_markdown]
  rw [if_neg hd]
  simp only [hrefs, List.isEmpty_nil, destTruthy, hd2, hkey, Bool.and_self, Bool.true_and,
    if_true, destVal]
  cases hs : env.search (d ++ " travel attractions") with
  | none => exact ⟨rfl, by simp [dimLoop], rfl, rfl⟩
  | some items => exact ⟨rfl, by simpa [dimLoop] using hlen items, rfl, rfl⟩

/-- An extractor environment with the key configured and four search
results. -/
def envSearch : ImgEnv :=
  { serpKey := true,
    search := fun _ => some [⟨some "u1"⟩, ⟨some "u2"⟩, ⟨some "u3"⟩, ⟨some "u4"⟩] }

/-- Witness for claim C6's theorem on a reference-free text. -/
theorem no_refs_triggers_one_search_witness :
    (findImageRefs ("Nice place".toList) = [] ∧ ("Paris" : String) ≠ "" ∧ envSearch.serpKey = true)
    ∧ ((display_images_from_markdown envSearch "Nice place" (some "Paris")).searches
        = ["Paris travel attractions"]
      ∧ (display_images_from_markdown envSearch "Nice place" (some "Paris")).searchImages.length ≤ 3
      ∧ (display_images_from_markdown envSearch "Nice place" (some "Paris")).refImages = []
      ∧ (display_images_from_markdown envSearch "Nice place" (some "Paris")).text = "Nice place") := by
  refine ⟨⟨by decide, by decide, rfl⟩, ?_⟩
  exact no_refs_triggers_one_search envSearch "Nice place" "Paris" (by decide) (by decide) rfl

end GlobeTrek
